import Mathlib

/-!
Verification development for the gym-dashboard request handler
(src/getLevelOneGymDashboard/lambda_function.py).

The program is a single AWS-Lambda-style handler: it validates the HTTP
method and Content-Type, decodes a multipart body, extracts the first
part whose Content-Disposition contains the substring "file", parses it
as CSV into a pandas DataFrame, and runs an aggregation pipeline
(column validation, timestamp parsing, duration computation, grouping,
summary statistics), wrapping everything in a JSON response envelope.

The embedding below mirrors the source line by line:
* CSV cells are modelled as plain strings (pandas NaN cells, produced
  only by short rows or empty fields, are not modelled; all concrete
  inputs used here are rectangular with non-empty cells).
* Timestamps are modelled as seconds since the Unix epoch; the model of
  pd.to_datetime(..., utc=True) accepts an ISO-8601 subset
  (YYYY-MM-DD, optionally followed by T or space and HH:MM:SS and an
  optional trailing Z); all other strings are unparsable, which models
  the DateParseError / ValueError raised by pandas.
* Rational numbers stand in for the floating-point durations/means.
* All string processing is defined structurally on character lists so
  that every definition evaluates by kernel reduction.
-/

/-! ### Character-level string helpers (models of Python string ops) -/

/-- Split a character list at every occurrence of a separator character. -/
def splitChar (sep : Char) : List Char → List (List Char)
  | [] => [[]]
  | c :: cs =>
    match splitChar sep cs with
    | [] => if c = sep then [[], []] else [[c]]
    | h :: t => if c = sep then [] :: h :: t else (c :: h) :: t

/-- Boolean prefix test on character lists. -/
def isPrefixChars : List Char → List Char → Bool
  | [], _ => true
  | _ :: _, [] => false
  | a :: as, b :: bs => a == b && isPrefixChars as bs

/-- Boolean substring test on character lists. -/
def containsChars (needle : List Char) : List Char → Bool
  | [] => isPrefixChars needle []
  | c :: cs => isPrefixChars needle (c :: cs) || containsChars needle cs

/-- Model of the Python expression needle in hay (substring containment). -/
def pyIn (needle hay : String) : Bool := containsChars needle.data hay.data

/-- Numeric value of a decimal digit character, if it is one. -/
def digitVal (c : Char) : Option Nat :=
  if c.isDigit then some (c.toNat - 48) else none

/-- Accumulate the decimal value of a digit string. -/
def digitsValAux : List Char → Nat → Option Nat
  | [], acc => some acc
  | c :: cs, acc =>
    match digitVal c with
    | some d => digitsValAux cs (10 * acc + d)
    | none => none

/-- Parse a non-empty all-digit character list as a natural number. -/
def digitsToNat (cs : List Char) : Option Nat :=
  if cs.isEmpty then none else digitsValAux cs 0

/-! ### Timestamp parsing (model of pd.to_datetime with utc=True) -/

def leapYear (y : Nat) : Bool := (y % 4 == 0 && y % 100 != 0) || y % 400 == 0

def daysInMonth (y m : Nat) : Nat :=
  if m = 2 then (if leapYear y then 29 else 28)
  else if m = 4 ∨ m = 6 ∨ m = 9 ∨ m = 11 then 30
  else 31

def daysInYear (y : Nat) : Nat := if leapYear y then 366 else 365

/-- Days elapsed from 1970-01-01 to the given civil date (year ≥ 1970). -/
def daysSince1970 (y m d : Nat) : Nat :=
  (List.range (y - 1970)).foldl (fun acc i => acc + daysInYear (1970 + i)) 0 +
    (List.range (m - 1)).foldl (fun acc i => acc + daysInMonth y (i + 1)) 0 +
    (d - 1)

/-- Parse YYYY-MM-DD into a day count since the epoch. -/
def parseDateChars (cs : List Char) : Option Nat :=
  match splitChar (Char.ofNat 45) cs with
  | [ys, ms, ds] =>
    match digitsToNat ys, digitsToNat ms, digitsToNat ds with
    | some y, some m, some d =>
      if 1970 ≤ y && 1 ≤ m && m ≤ 12 && 1 ≤ d && d ≤ daysInMonth y m then
        some (daysSince1970 y m d)
      else none
    | _, _, _ => none
  | _ => none

/-- Parse HH:MM:SS into seconds since midnight. -/
def parseTimeChars (cs : List Char) : Option Nat :=
  match splitChar (Char.ofNat 58) cs with
  | [hs, ms, ss] =>
    match digitsToNat hs, digitsToNat ms, digitsToNat ss with
    | some h, some m, some s =>
      if h ≤ 23 && m ≤ 59 && s ≤ 59 then some (3600 * h + 60 * m + s) else none
    | _, _, _ => none
  | _ => none

/-- Drop a single trailing Z (UTC designator). -/
def dropTrailingZ (cs : List Char) : List Char :=
  if cs.getLast? = some (Char.ofNat 90) then cs.dropLast else cs

/-- Combine a date part and a time part into epoch seconds. -/
def parseDateTimeParts (d t : List Char) : Option Int :=
  match parseDateChars d, parseTimeChars (dropTrailingZ t) with
  | some days, some secs => some (86400 * (days : Int) + (secs : Int))
  | _, _ => none

/-- Model of pd.to_datetime(cell, utc=True) for one cell: epoch seconds,
or none when the text is unparsable (pandas raises in that case). -/
def parseTimestamp (s : String) : Option Int :=
  match splitChar (Char.ofNat 84) s.data with
  | [d, t] => parseDateTimeParts d t
  | [dOnly] =>
    match splitChar (Char.ofNat 32) dOnly with
    | [d, t] => parseDateTimeParts d t
    | [d] => (parseDateChars d).map (fun days => 86400 * (days : Int))
    | _ => none
  | _ => none

/-! ### The DataFrame model -/

/-- A parsed CSV: a header and one string cell list per row, mirroring the
pandas DataFrame the handler builds with pd.read_csv. -/
structure DataFrame where
  columns : List String
  rows : List (List String)
deriving DecidableEq, Inhabited

/-- Value of a named column in a row (first matching column), with a
default for absent columns; after the column checks in the pipeline all
relevant lookups succeed. -/
def cellD (cols row : List String) (c : String) : String :=
  ((cols.zip row).lookup c).getD ""

/-- required_columns from the source. -/
def requiredColumns : List String :=
  ["clientId", "status", "startDate", "endDate", "name"]

/-- missing_columns from the source: required columns absent from the
header, in required-column order. -/
def missingColumns (df : DataFrame) : List String :=
  requiredColumns.filter (fun c => !(df.columns.contains c))

/-- Parsed startDate of a row (meaningful once allDatesParse holds). -/
def startTs (cols row : List String) : Int :=
  (parseTimestamp (cellD cols row "startDate")).getD 0

/-- Parsed endDate of a row (meaningful once allDatesParse holds). -/
def endTs (cols row : List String) : Int :=
  (parseTimestamp (cellD cols row "endDate")).getD 0

/-- Whether every row of both date columns parses; pd.to_datetime raises
on the whole column as soon as any single cell is unparsable. -/
def allDatesParse (df : DataFrame) : Bool :=
  df.rows.all fun r =>
    (parseTimestamp (cellD df.columns r "startDate")).isSome &&
      (parseTimestamp (cellD df.columns r "endDate")).isSome

/-- duration_minutes of the source: (endDate - startDate).dt.total_seconds() / 60. -/
def durationMinutes (s e : Int) : ℚ := ((e - s : Int) : ℚ) / 60

/-- Per-row duration in minutes. -/
def rowDuration (cols row : List String) : ℚ :=
  durationMinutes (startTs cols row) (endTs cols row)

/-- Input columns referenced by the named aggregation
agg(id=(clientId,max), total_checkins=(id,count),
average_duration=(duration_minutes,mean), last_start_date=(startDate,max),
status=(status,last)). Note that it references a column named id, which
is not among the required columns. -/
def aggSourceColumns : List String :=
  ["clientId", "id", "duration_minutes", "startDate", "status"]

/-- Referenced aggregation input columns that do not exist in the frame
(duration_minutes was just assigned, so it always exists). pandas raises
KeyError / SpecificationError (Column(s) ... do not exist) when this list
is non-empty; that exception is not a pd.errors.ParserError. -/
def aggMissingColumns (df : DataFrame) : List String :=
  aggSourceColumns.filter (fun c => !(df.columns.contains c || c == "duration_minutes"))

/-! ### Grouping -/

/-- The groupby key of a row: the (clientId, name) pair. -/
def rowKey (cols row : List String) : String × String :=
  (cellD cols row "clientId", cellD cols row "name")

/-- Elements of a list not yet seen, keeping first-occurrence order. -/
def firstOccurrencesAux {α : Type} [DecidableEq α] (seen : List α) : List α → List α
  | [] => []
  | a :: l =>
    if a ∈ seen then firstOccurrencesAux seen l
    else a :: firstOccurrencesAux (a :: seen) l

/-- Deduplicate a list keeping the first occurrence of each element.
pandas emits groups in sorted key order, but no property below depends on
the emission order, so first-occurrence order is used. -/
def firstOccurrences {α : Type} [DecidableEq α] (l : List α) : List α :=
  firstOccurrencesAux [] l

/-- All rows of the group with the given (clientId, name) key, in
original row order (pandas groupby preserves intra-group order). -/
def groupRows (df : DataFrame) (k : String × String) : List (List String) :=
  df.rows.filter fun r => decide (rowKey df.columns r = k)

/-- One record of the client_summary frame. -/
structure ClientSummary where
  clientId : String
  name : String
  id : String
  total_checkins : Nat
  average_duration : ℚ
  last_start_date : Int
  status : String
deriving DecidableEq, Inhabited

/-- Maximum of a string list (empty default never used on groups). -/
def maxStringD : List String → String
  | [] => ""
  | h :: t => t.foldl max h

/-- Maximum of an integer list (empty default never used on groups). -/
def maxIntD : List Int → Int
  | [] => 0
  | h :: t => t.foldl max h

/-- The aggregated record for one (clientId, name) group:
id = max clientId in the group, total_checkins = count of (non-null,
always in this model) id-column entries, i.e. the group size,
average_duration = mean of duration_minutes, last_start_date = max
startDate (the source additionally renders it via astype(str)),
status = the status of the last row of the group in input order. -/
def mkClientSummary (df : DataFrame) (k : String × String) : ClientSummary :=
  let g := groupRows df k
  { clientId := k.1
    name := k.2
    id := maxStringD (g.map fun r => cellD df.columns r "clientId")
    total_checkins := g.length
    average_duration := (g.map fun r => rowDuration df.columns r).sum / (g.length : ℚ)
    last_start_date := maxIntD (g.map fun r => startTs df.columns r)
    status := (g.map fun r => cellD df.columns r "status").getLastD "" }

/-- client_summary: one record per distinct (clientId, name) pair. -/
def clientSummaries (df : DataFrame) : List ClientSummary :=
  (firstOccurrences (df.rows.map fun r => rowKey df.columns r)).map (mkClientSummary df)

/-- clientId values of rows whose status is the given string. -/
def clientIdsWithStatus (df : DataFrame) (st : String) : List String :=
  (df.rows.filter fun r => cellD df.columns r "status" == st).map
    fun r => cellD df.columns r "clientId"

/-- clientId values of all rows. -/
def allClientIds (df : DataFrame) : List String :=
  df.rows.map fun r => cellD df.columns r "clientId"

/-- unique_active_clients: nunique of clientId over rows with status active. -/
def uniqueActiveClients (df : DataFrame) : Nat :=
  (clientIdsWithStatus df "active").toFinset.card

/-- unique_inactive_clients: nunique of clientId over rows with status inactive. -/
def uniqueInactiveClients (df : DataFrame) : Nat :=
  (clientIdsWithStatus df "inactive").toFinset.card

/-- Number of distinct clientId values in the whole input. -/
def distinctClients (df : DataFrame) : Nat := (allClientIds df).toFinset.card

/-! ### Time-of-day buckets -/

/-- One record of the checkins_by_day_time frame. -/
structure CheckinTimeBucket where
  day_of_week : String
  hour_of_day : Nat
  checkin_count : Nat
deriving DecidableEq, Inhabited

/-- Fixed offset of the America/Campo_Grande zone (UTC-4). -/
def campoGrandeOffset : Int := -14400

def dayNames : List String :=
  ["Sunday", "Monday", "Tuesday", "Wednesday", "Thursday", "Friday", "Saturday"]

/-- English weekday name of an epoch instant in local time
(1970-01-01 was a Thursday). -/
def dayOfWeekName (t : Int) : String :=
  dayNames.getD ((((t + campoGrandeOffset).fdiv 86400 + 4).emod 7).toNat) ""

/-- Hour of day (0-23) of an epoch instant in local time. -/
def hourOfDay (t : Int) : Nat :=
  ((t + campoGrandeOffset).emod 86400).toNat / 3600

/-- The (day_of_week, hour_of_day) bucket of a row, from its startDate. -/
def bucketKey (cols row : List String) : String × Nat :=
  (dayOfWeekName (startTs cols row), hourOfDay (startTs cols row))

/-- checkins_by_day_time: row counts per (day_of_week, hour_of_day). -/
def checkinsByDayTime (df : DataFrame) : List CheckinTimeBucket :=
  (firstOccurrences (df.rows.map fun r => bucketKey df.columns r)).map fun b =>
    { day_of_week := b.1
      hour_of_day := b.2
      checkin_count := (df.rows.filter fun r => decide (bucketKey df.columns r = b)).length }

/-! ### The aggregation result and pipeline -/

/-- Mean of a rational list; none models the NaN that pandas mean
returns on an empty column. -/
def meanOpt (l : List ℚ) : Option ℚ :=
  if l.isEmpty then none else some (l.sum / (l.length : ℚ))

/-- The successful response payload (the response dict of the source,
minus the constant message field). -/
structure AggResponse where
  client_summary : List ClientSummary
  checkins_by_day_time : List CheckinTimeBucket
  unique_active_clients : Nat
  unique_inactive_clients : Nat
  average_duration_overall : Option ℚ
  average_total_checkins_overall : Option ℚ
deriving DecidableEq, Inhabited

/-- The whole successful aggregation, lines 59-110 of the source. -/
def buildResponse (df : DataFrame) : AggResponse :=
  let summaries := clientSummaries df
  { client_summary := summaries
    checkins_by_day_time := checkinsByDayTime df
    unique_active_clients := uniqueActiveClients df
    unique_inactive_clients := uniqueInactiveClients df
    average_duration_overall := meanOpt (summaries.map fun s => s.average_duration)
    average_total_checkins_overall :=
      meanOpt (summaries.map fun s => (s.total_checkins : ℚ)) }

/-- Classified failures of the aggregation pipeline. missingColumns is
the explicit 400 return of the source; dateParseError models the
ValueError raised by pd.to_datetime; aggColumnsDoNotExist models the
KeyError / SpecificationError raised by the named aggregation when a
referenced input column is absent. -/
inductive AggError where
  | missingColumns (cols : List String)
  | dateParseError
  | aggColumnsDoNotExist (cols : List String)
deriving DecidableEq

/-- The aggregation pipeline in source order: column check, then
timestamp parsing, then the named aggregation (whose input-column
validation occurs before any aggregation output exists), then the
response construction. -/
def processDf (df : DataFrame) : Except AggError AggResponse :=
  if missingColumns df ≠ [] then .error (.missingColumns (missingColumns df))
  else if !(allDatesParse df) then .error .dateParseError
  else if aggMissingColumns df ≠ [] then .error (.aggColumnsDoNotExist (aggMissingColumns df))
  else .ok (buildResponse df)

/-! ### The ingress adapter (lambda_handler) -/

/-- One decoded multipart part. -/
structure FormPart where
  disposition : String
  content : String
deriving DecidableEq, Inhabited

/-- Result of base64 plus multipart decoding of the request body, treated
as an external collaborator; failed covers binascii and decoder
exceptions (both reach the generic handler). -/
inductive DecodedBody where
  | failed
  | parts (ps : List FormPart)
deriving DecidableEq, Inhabited

/-- The Lambda event. none fields model absent dictionary keys, whose
access raises KeyError inside the try block. -/
structure Event where
  httpMethod : Option String
  headers : Option (List (String × String))
  body : Option DecodedBody
deriving DecidableEq, Inhabited

/-- Response body payload; the source serializes it with json.dumps. -/
inductive RespBody where
  | message (msg : String)
  | success (result : AggResponse)
deriving DecidableEq, Inhabited

/-- The response envelope. -/
structure LambdaResponse where
  statusCode : Nat
  body : RespBody
deriving DecidableEq, Inhabited

/-- The generic except-Exception branch: statusCode 500. -/
def internalError (detail : String) : LambdaResponse :=
  ⟨500, .message ("Internal server error: " ++ detail)⟩

/-- How each pipeline failure surfaces: the missing-column check is an
explicit 400 return; the two exception-based failures fall through to
the generic except branch (500), since neither is a pd.errors.ParserError. -/
def processErrorResponse : AggError → LambdaResponse
  | .missingColumns cols =>
    ⟨400, .message ("Missing required columns: " ++ String.intercalate ", " cols)⟩
  | .dateParseError => internalError "time data could not be parsed"
  | .aggColumnsDoNotExist cols =>
    internalError ("Column(s) " ++ String.intercalate ", " cols ++ " do not exist")

/-- Errors of pd.read_csv: ParserError (caught, 400) and EmptyDataError
(not a ParserError, so it reaches the generic branch, 500). -/
inductive CsvError where
  | parserError
  | emptyData
deriving DecidableEq

/-- Model of pd.read_csv on the decoded part content: split into
non-blank lines, first line is the header; a rectangular body is
required (pandas raises ParserError on extra fields; its NaN-padding of
short rows is outside this NaN-free model). -/
def readCsv (s : String) : Except CsvError DataFrame :=
  match (splitChar (Char.ofNat 10) s.data).filter (fun l => !l.isEmpty) with
  | [] => .error .emptyData
  | header :: rest =>
    let cols := (splitChar (Char.ofNat 44) header).map String.mk
    let rows := rest.map fun line => (splitChar (Char.ofNat 44) line).map String.mk
    if rows.all (fun r => r.length == cols.length) then .ok ⟨cols, rows⟩
    else .error .parserError

/-- The loop over multipart parts selects the first part whose
Content-Disposition contains the substring file, then breaks. -/
def isFilePart (p : FormPart) : Bool := pyIn "file" p.disposition

/-- Python truthiness of an optional string (None and the empty string
are falsy). -/
def pyTruthy (o : Option String) : Option String :=
  match o with
  | some s => if s = "" then none else some s
  | none => none

/-- content_type = headers.get(Content-Type) or headers.get(content-type),
then the falsy check: the overall value used by the guard. -/
def contentTypeOf (hs : List (String × String)) : Option String :=
  pyTruthy (hs.lookup "Content-Type") <|> pyTruthy (hs.lookup "content-type")

/-- The whole handler, lines 7-123 of the source. Every dictionary-key
access sits inside the try block, so a missing key (modelled by none)
reaches the generic except branch. -/
def lambdaHandler (ev : Event) : LambdaResponse :=
  match ev.httpMethod with
  | none => internalError "KeyError: httpMethod"
  | some m =>
    if m ≠ "POST" then ⟨405, .message "Method Not Allowed"⟩
    else
      match ev.headers with
      | none => internalError "KeyError: headers"
      | some hs =>
        match contentTypeOf hs with
        | none => ⟨400, .message "Content-Type header is missing"⟩
        | some _ =>
          match ev.body with
          | none => internalError "KeyError: body"
          | some .failed => internalError "body decoding failed"
          | some (.parts ps) =>
            match ps.find? isFilePart with
            | none => ⟨400, .message "No CSV file found in the request"⟩
            | some p =>
              match readCsv p.content with
              | .error .parserError =>
                ⟨400, .message "Error parsing CSV file. Please check the file format."⟩
              | .error .emptyData => internalError "No columns to parse from file"
              | .ok df =>
                match processDf df with
                | .error e => processErrorResponse e
                | .ok r => ⟨200, .success r⟩

/-! ### Concrete inputs used by individual properties -/

/-- The two-row example input of the spec (only the five required
columns), as CSV text. -/
def c1csv : String :=
  "clientId,status,startDate,endDate,name\n1,active,2024-01-01T10:00:00Z,2024-01-01T10:30:00Z,A\n1,active,2024-01-02T10:00:00Z,2024-01-02T10:45:00Z,A\n"

/-- The frame readCsv produces for c1csv. -/
def c1df : DataFrame :=
  ⟨["clientId", "status", "startDate", "endDate", "name"],
   [["1", "active", "2024-01-01T10:00:00Z", "2024-01-01T10:30:00Z", "A"],
    ["1", "active", "2024-01-02T10:00:00Z", "2024-01-02T10:45:00Z", "A"]]⟩

/-- A well-formed POST event uploading c1csv. -/
def c1ev : Event :=
  ⟨some "POST", some [("Content-Type", "multipart/form-data; boundary=xyz")],
   some (.parts [⟨"form-data; name=file; filename=data.csv", c1csv⟩])⟩

/-- An input with all required columns but an unparsable startDate. -/
def c2xdf : DataFrame :=
  ⟨["clientId", "status", "startDate", "endDate", "name"],
   [["1", "active", "notadate", "2024-01-01T00:00:00Z", "A"]]⟩

def c2xcsv : String :=
  "clientId,status,startDate,endDate,name\n1,active,notadate,2024-01-01T00:00:00Z,A\n"

def c2xev : Event :=
  ⟨some "POST", some [("Content-Type", "multipart/form-data; boundary=xyz")],
   some (.parts [⟨"form-data; name=file; filename=data.csv", c2xcsv⟩])⟩

/-- One client with both an active and an inactive row (and an id column
so the aggregation itself succeeds). -/
def c3xdf : DataFrame :=
  ⟨["clientId", "status", "startDate", "endDate", "name", "id"],
   [["1", "active", "2024-01-01T10:00:00Z", "2024-01-01T11:00:00Z", "A", "1"],
    ["1", "inactive", "2024-01-02T10:00:00Z", "2024-01-02T11:00:00Z", "A", "1"]]⟩

/-- Three clients: one active, one inactive, one with an unrecognized
status; no client carries both active and inactive rows. -/
def c3wdf : DataFrame :=
  ⟨["clientId", "status", "startDate", "endDate", "name", "id"],
   [["1", "active", "2024-01-01T10:00:00Z", "2024-01-01T11:00:00Z", "A", "1"],
    ["2", "inactive", "2024-01-02T10:00:00Z", "2024-01-02T11:00:00Z", "B", "2"],
    ["3", "pending", "2024-01-03T10:00:00Z", "2024-01-03T11:00:00Z", "C", "3"]]⟩

/-- An input whose header lacks the endDate column. -/
def c4wdf : DataFrame :=
  ⟨["clientId", "status", "startDate", "name"],
   [["1", "active", "2024-01-01T10:00:00Z", "A"]]⟩

/-- The empty input: zero rows, exactly the required columns. -/
def c5csv : String := "clientId,status,startDate,endDate,name\n"

def c5df : DataFrame := ⟨["clientId", "status", "startDate", "endDate", "name"], []⟩

def c5ev : Event :=
  ⟨some "POST", some [("Content-Type", "multipart/form-data; boundary=xyz")],
   some (.parts [⟨"form-data; name=file; filename=data.csv", c5csv⟩])⟩

/-- The empty input extended with an id column, which sidesteps the
aggregation slip. -/
def c5dfWithId : DataFrame :=
  ⟨["clientId", "status", "startDate", "endDate", "name", "id"], []⟩

/-- Two groups of different sizes (checks the unweighted mean of means). -/
def c6wdf : DataFrame :=
  ⟨["clientId", "status", "startDate", "endDate", "name", "id"],
   [["1", "active", "2024-01-01T10:00:00Z", "2024-01-01T11:00:00Z", "A", "1"],
    ["1", "active", "2024-01-02T10:00:00Z", "2024-01-02T12:00:00Z", "A", "1"],
    ["2", "active", "2024-01-03T10:00:00Z", "2024-01-03T10:10:00Z", "B", "2"]]⟩

def c6r : AggResponse := ((processDf c6wdf).toOption).getD default

/-- One group whose last row in input order is older by startDate than
its first row and carries a different status. -/
def c7wdf : DataFrame :=
  ⟨["clientId", "status", "startDate", "endDate", "name", "id"],
   [["1", "active", "2024-01-02T10:00:00Z", "2024-01-02T11:00:00Z", "A", "1"],
    ["1", "inactive", "2024-01-01T09:00:00Z", "2024-01-01T10:00:00Z", "A", "1"]]⟩

def c7r : AggResponse := ((processDf c7wdf).toOption).getD default

def c7s0 : ClientSummary := mkClientSummary c7wdf ("1", "A")

/-- A single row whose endDate precedes its startDate by 30 minutes. -/
def c8df : DataFrame :=
  ⟨["clientId", "status", "startDate", "endDate", "name", "id"],
   [["1", "active", "2024-01-01T10:30:00Z", "2024-01-01T10:00:00Z", "A", "1"]]⟩

/-- A malformed event: every dictionary key is absent. -/
def c9ev : Event := ⟨none, none, none⟩

/-! ### Helper lemmas -/

theorem mem_firstOccurrencesAux {α : Type} [DecidableEq α] {a : α} :
    ∀ {l seen : List α}, a ∈ firstOccurrencesAux seen l ↔ a ∈ l ∧ a ∉ seen := by
  intro l
  induction l with
  | nil => simp [firstOccurrencesAux]
  | cons b l ih =>
    intro seen
    by_cases hb : b ∈ seen
    · rw [firstOccurrencesAux, if_pos hb]
      by_cases hab : a = b
      · subst hab
        simp [ih, hb]
      · simp [ih, hab]
    · rw [firstOccurrencesAux, if_neg hb]
      by_cases hab : a = b
      · subst hab
        simp [hb]
      · simp [ih, hab]

theorem mem_firstOccurrences {α : Type} [DecidableEq α] {a : α} {l : List α} :
    a ∈ firstOccurrences l ↔ a ∈ l := by
  rw [firstOccurrences, mem_firstOccurrencesAux]
  simp

theorem processDf_ok_eq {df : DataFrame} {r : AggResponse}
    (h : processDf df = .ok r) : r = buildResponse df := by
  unfold processDf at h
  split at h
  · simp at h
  · split at h
    · simp at h
    · split at h
      · simp at h
      · injection h with h
        exact h.symm

theorem getLast?_of_ne_nil {α : Type} (d : α) :
    ∀ {l : List α}, l ≠ [] → l.getLast? = some (l.getLastD d)
  | [], h => absurd rfl h
  | [x], _ => rfl
  | x :: y :: ys, _ => by
    rw [List.getLast?_cons_cons, List.getLastD_cons,
      getLast?_of_ne_nil x (l := y :: ys) (by simp), List.getLastD_cons]

/-! ### Properties -/

/-- C1: the claim says every valid input (required columns present, all
timestamps parsable) aggregates successfully with per-group row counts.
In fact the named aggregation references an input column id that the
required columns do not provide, so the two-row example input of the
spec itself makes pandas raise (Column(s) id do not exist) and the
handler answers 500 with no aggregation output. -/
theorem C1_agg_references_missing_id_column :
    readCsv c1csv = .ok c1df ∧
      missingColumns c1df = [] ∧ allDatesParse c1df = true ∧
      processDf c1df = .error (.aggColumnsDoNotExist ["id"]) ∧
      (lambdaHandler c1ev).statusCode = 500 :=
  ⟨rfl, rfl, rfl, rfl, rfl⟩

/-- C2 counterexample: a valid-column input with one unparsable
startDate makes the whole operation fail, but the response produced
through the generic-exception path has statusCode 500, not a 400-class
status as claimed. -/
theorem C2_counterexample_date_error_is_500 :
    processDf c2xdf = .error .dateParseError ∧
      readCsv c2xcsv = .ok c2xdf ∧
      (lambdaHandler c2xev).statusCode = 500 ∧
      ¬(lambdaHandler c2xev).statusCode = 400 :=
  ⟨rfl, rfl, rfl, by decide⟩

/-- C2 amended: for every input whose required columns are present but
where some row's startDate or endDate is unparsable, the whole pipeline
fails atomically with dateParseError (no partial results), and that
failure surfaces through the generic-exception path as a 500 response. -/
theorem C2_amended_unparsable_date_fails_whole_batch (df : DataFrame)
    (hcols : missingColumns df = [])
    (hbad : ∃ r ∈ df.rows,
      parseTimestamp (cellD df.columns r "startDate") = none ∨
        parseTimestamp (cellD df.columns r "endDate") = none) :
    processDf df = .error .dateParseError ∧
      (processErrorResponse .dateParseError).statusCode = 500 := by
  have hB : allDatesParse df = false := by
    cases hb : allDatesParse df with
    | false => rfl
    | true =>
      exfalso
      rcases hbad with ⟨r, hr, hor⟩
      simp only [allDatesParse, List.all_eq_true] at hb
      have := hb r hr
      rcases hor with h | h <;> simp [h] at this
  exact ⟨by simp [processDf, hcols, hB], rfl⟩

/-- C2 witness: the amended statement applied to the concrete bad-date
input. -/
theorem C2_amended_witness :
    processDf c2xdf = .error .dateParseError ∧
      (processErrorResponse .dateParseError).statusCode = 500 :=
  C2_amended_unparsable_date_fails_whole_batch c2xdf rfl
    ⟨["1", "active", "notadate", "2024-01-01T00:00:00Z", "A"], List.Mem.head _, Or.inl rfl⟩

/-- C4: whenever at least one required column is absent, the pipeline
fails before any row processing with a missingColumns error carrying
exactly the missing names (in required-column order), and the handler
maps that error to a 400 response. -/
theorem C4_missing_columns_fail_fast (df : DataFrame)
    (h : missingColumns df ≠ []) :
    processDf df = .error (.missingColumns (missingColumns df)) ∧
      (processErrorResponse (.missingColumns (missingColumns df))).statusCode = 400 :=
  ⟨by simp [processDf, h], rfl⟩

/-- C4 witness: dropping endDate yields exactly the list
consisting of endDate. -/
theorem C4_missing_columns_witness :
    processDf c4wdf = .error (.missingColumns ["endDate"]) ∧
      (processErrorResponse (.missingColumns ["endDate"])).statusCode = 400 :=
  C4_missing_columns_fail_fast c4wdf (by decide)

/-- C5: the claim says the empty input (zero rows, required columns
present) succeeds with empty sequences, zero counts and null averages.
In fact the aggregation's input-column validation still raises on the
absent id column, so the minimal empty input produces a 500 response;
were an id column present, the empty input would succeed exactly as the
claim describes. -/
theorem C5_empty_input_still_hits_id_column_bug :
    readCsv c5csv = .ok c5df ∧
      missingColumns c5df = [] ∧ c5df.rows = [] ∧
      processDf c5df = .error (.aggColumnsDoNotExist ["id"]) ∧
      (lambdaHandler c5ev).statusCode = 500 ∧
      processDf c5dfWithId = .ok ⟨[], [], 0, 0, none, none⟩ :=
  ⟨rfl, rfl, rfl, rfl, rfl, by with_unfolding_all rfl⟩

/-- C6: on every successful aggregation, the two overall scalars are the
unweighted means of the per-group average_duration and total_checkins
columns of the client summary (a mean of means, with no weighting of
groups by size). -/
theorem C6_overall_scalars_are_means_of_group_values (df : DataFrame) (r : AggResponse)
    (h : processDf df = .ok r) :
    r.average_duration_overall = meanOpt (r.client_summary.map fun s => s.average_duration) ∧
      r.average_total_checkins_overall =
        meanOpt (r.client_summary.map fun s => (s.total_checkins : ℚ)) := by
  have he := processDf_ok_eq h
  subst he
  exact ⟨rfl, rfl⟩

/-- C6 witness: the property at a concrete successful input with groups
of different sizes. -/
theorem C6_overall_scalars_witness :
    c6r.average_duration_overall = meanOpt (c6r.client_summary.map fun s => s.average_duration) ∧
      c6r.average_total_checkins_overall =
        meanOpt (c6r.client_summary.map fun s => (s.total_checkins : ℚ)) :=
  C6_overall_scalars_are_means_of_group_values c6wdf c6r rfl

/-- C8: duration_minutes is the signed difference of the two instants in
seconds divided by 60; an endDate earlier than the startDate yields a
strictly negative duration; and such a row flows through the pipeline
unrejected and unclamped, as the concrete single-row input whose
average_duration lands at -30 shows. -/
theorem C8_duration_is_signed_and_unclamped :
    (∀ s e : Int, durationMinutes s e = ((e : ℚ) - (s : ℚ)) / 60) ∧
      (∀ s e : Int, e < s → durationMinutes s e < 0) ∧
      (processDf c8df).map (fun r => r.client_summary.map fun s => s.average_duration) =
        .ok [-30] := by
  refine ⟨?_, ?_, ?_⟩
  · intro s e
    unfold durationMinutes
    push_cast
    ring
  · intro s e h
    unfold durationMinutes
    apply div_neg_of_neg_of_pos
    · have hneg : e - s < 0 := by omega
      exact_mod_cast hneg
    · norm_num
  · with_unfolding_all rfl

/-- C8 witness: the negativity clause at a concrete pair of instants. -/
theorem C8_duration_witness : durationMinutes 1800 0 < 0 :=
  C8_duration_is_signed_and_unclamped.2.1 1800 0 (by decide)

/-- C3 counterexample: a single client with one active and one inactive
row is counted by both nunique computations, so the sum of the two
unique-client counts (2) exceeds the number of distinct clientId values
(1) even though no other status value occurs; the pipeline succeeds on
this input and reports exactly those counts. -/
theorem C3_counterexample_both_statuses :
    uniqueActiveClients c3xdf + uniqueInactiveClients c3xdf = 2 ∧
      distinctClients c3xdf = 1 ∧
      ¬(uniqueActiveClients c3xdf + uniqueInactiveClients c3xdf ≤ distinctClients c3xdf) ∧
      (processDf c3xdf).map (fun r => (r.unique_active_clients, r.unique_inactive_clients)) =
        .ok (1, 1) :=
  ⟨rfl, rfl, by decide, rfl⟩

/-- C3 amended: provided no clientId value occurs both on an active row
and on an inactive row, the sum of the two unique counts is at most the
number of distinct clientId values, with equality exactly when every
clientId value occurs on at least one active or inactive row. -/
theorem C3_amended_unique_count_bound (df : DataFrame)
    (h : ∀ c ∈ clientIdsWithStatus df "active", c ∉ clientIdsWithStatus df "inactive") :
    uniqueActiveClients df + uniqueInactiveClients df ≤ distinctClients df ∧
      (uniqueActiveClients df + uniqueInactiveClients df = distinctClients df ↔
        ∀ c ∈ allClientIds df,
          c ∈ clientIdsWithStatus df "active" ∨ c ∈ clientIdsWithStatus df "inactive") := by
  have key : ∀ st : String,
      (clientIdsWithStatus df st).toFinset ⊆ (allClientIds df).toFinset := by
    intro st c hc
    rw [List.mem_toFinset] at hc ⊢
    exact List.map_subset _ (List.filter_subset' _) hc
  have hdisj : Disjoint (clientIdsWithStatus df "active").toFinset
      (clientIdsWithStatus df "inactive").toFinset := by
    rw [Finset.disjoint_left]
    intro c hcA hcI
    exact h c (List.mem_toFinset.mp hcA) (List.mem_toFinset.mp hcI)
  have hunion := Finset.card_union_of_disjoint hdisj
  have hsubU : (clientIdsWithStatus df "active").toFinset ∪
      (clientIdsWithStatus df "inactive").toFinset ⊆ (allClientIds df).toFinset :=
    Finset.union_subset (key "active") (key "inactive")
  unfold uniqueActiveClients uniqueInactiveClients distinctClients
  constructor
  · rw [← hunion]
    exact Finset.card_le_card hsubU
  · constructor
    · intro heq c hc
      have hUD : (clientIdsWithStatus df "active").toFinset ∪
          (clientIdsWithStatus df "inactive").toFinset = (allClientIds df).toFinset := by
        apply Finset.eq_of_subset_of_card_le hsubU
        omega
      have hcD : c ∈ (allClientIds df).toFinset := List.mem_toFinset.mpr hc
      rw [← hUD] at hcD
      rcases Finset.mem_union.mp hcD with h1 | h1
      · exact Or.inl (List.mem_toFinset.mp h1)
      · exact Or.inr (List.mem_toFinset.mp h1)
    · intro hall
      have hDU : (allClientIds df).toFinset ⊆
          (clientIdsWithStatus df "active").toFinset ∪
            (clientIdsWithStatus df "inactive").toFinset := by
        intro c hc
        rcases hall c (List.mem_toFinset.mp hc) with h1 | h1
        · exact Finset.mem_union_left _ (List.mem_toFinset.mpr h1)
        · exact Finset.mem_union_right _ (List.mem_toFinset.mpr h1)
      have heq := Finset.Subset.antisymm hsubU hDU
      rw [← heq, hunion]

/-- C3 amended witness: the bound and the (failing) equality at an input
with one active, one inactive and one pending client. -/
theorem C3_amended_witness :
    uniqueActiveClients c3wdf + uniqueInactiveClients c3wdf ≤ distinctClients c3wdf ∧
      (uniqueActiveClients c3wdf + uniqueInactiveClients c3wdf = distinctClients c3wdf ↔
        ∀ c ∈ allClientIds c3wdf,
          c ∈ clientIdsWithStatus c3wdf "active" ∨ c ∈ clientIdsWithStatus c3wdf "inactive") :=
  C3_amended_unique_count_bound c3wdf (by decide)

/-- C7: on every successful aggregation, each summary's status is the
status cell of the last row of its (clientId, name) group in original
input order (pandas groupby preserves intra-group row order and the
last aggregator takes the final entry), regardless of startDate order. -/
theorem C7_status_is_last_row_in_input_order (df : DataFrame) (r : AggResponse)
    (h : processDf df = .ok r) :
    ∀ s ∈ r.client_summary,
      ((groupRows df (s.clientId, s.name)).map fun row =>
        cellD df.columns row "status").getLast? = some s.status := by
  have he := processDf_ok_eq h
  subst he
  intro s hs
  have hs' : s ∈ clientSummaries df := hs
  unfold clientSummaries at hs'
  rcases List.mem_map.mp hs' with ⟨k, hk, rfl⟩
  have hkmem : k ∈ df.rows.map (fun row => rowKey df.columns row) :=
    mem_firstOccurrences.mp hk
  rcases List.mem_map.mp hkmem with ⟨row, hrow, hkey⟩
  have hg : row ∈ groupRows df k := by
    unfold groupRows
    rw [List.mem_filter]
    exact ⟨hrow, by simp [hkey]⟩
  have hne : (groupRows df k).map (fun row => cellD df.columns row "status") ≠ [] := by
    intro hc
    rw [List.map_eq_nil_iff] at hc
    rw [hc] at hg
    exact absurd hg (List.not_mem_nil row)
  show ((groupRows df k).map fun row => cellD df.columns row "status").getLast? =
    some ((mkClientSummary df k).status)
  exact getLast?_of_ne_nil "" hne

/-- C7 witness: the property at a concrete input whose last group row is
older by startDate than an earlier row and carries a different status. -/
theorem C7_status_witness :
    ((groupRows c7wdf (c7s0.clientId, c7s0.name)).map fun row =>
      cellD c7wdf.columns row "status").getLast? = some c7s0.status :=
  C7_status_is_last_row_in_input_order c7wdf c7r rfl c7s0
    (by simp [show c7r.client_summary = [c7s0] from rfl])

/-- C9: the handler is a total function of the event: the status code of
the response is always one of 200, 400, 405 and 500, and a malformed
event whose httpMethod key is absent lands in the generic-exception
branch with status 500 (the same holds for the other absent-key and
decode-failure paths, all modelled inside lambdaHandler). -/
theorem C9_handler_always_classified (ev : Event) :
    (lambdaHandler ev).statusCode ∈ ([200, 400, 405, 500] : List Nat) ∧
      (ev.httpMethod = none → (lambdaHandler ev).statusCode = 500) := by
  have hper : ∀ e, (processErrorResponse e).statusCode ∈ ([200, 400, 405, 500] : List Nat) := by
    intro e
    cases e <;> simp [processErrorResponse, internalError]
  obtain ⟨m, hs, b⟩ := ev
  constructor
  · cases m with
    | none => simp [lambdaHandler, internalError]
    | some m =>
      simp only [lambdaHandler]
      repeat' split
      all_goals first
        | exact hper _
        | decide
        | simp [internalError]
  · intro hm
    cases m with
    | none => simp [lambdaHandler, internalError]
    | some m => simp at hm

/-- C9 witness: the fully absent event is answered with status 500. -/
theorem C9_handler_witness : (lambdaHandler c9ev).statusCode = 500 :=
  (C9_handler_always_classified c9ev).2 rfl

/-- C10: the response depends on the part list only through the first
part whose Content-Disposition contains the substring file (later parts,
and parts without that substring, are ignored), and a disposition
containing file only inside a longer word such as profile also
qualifies. -/
theorem C10_first_file_substring_part_selected :
    (∀ (m : Option String) (hs : Option (List (String × String))) (ps : List FormPart),
        lambdaHandler ⟨m, hs, some (.parts ps)⟩ =
          lambdaHandler ⟨m, hs, some (.parts (ps.find? isFilePart).toList)⟩) ∧
      pyIn "file" "form-data; name=profile" = true ∧
      isFilePart ⟨"form-data; name=profile", ""⟩ = true := by
  refine ⟨?_, rfl, rfl⟩
  intro m hs ps
  have key : ((ps.find? isFilePart).toList).find? isFilePart = ps.find? isFilePart := by
    cases hf : ps.find? isFilePart with
    | none => rfl
    | some p =>
      have hp := List.find?_some hf
      show List.find? isFilePart [p] = some p
      rw [List.find?_cons_of_pos _ hp]
  simp only [lambdaHandler, key]
